import Mathlib

/-
Verification of the document-service layer of the Elasticsearch API repository
(src/Code/main.py): connection bootstrap with retry, index provisioning and
seeding, and the list/create/get/search gateway operations.

The Python code is shallowly embedded: Python dicts become ordered association
lists over a small JSON-value type, the Elasticsearch client becomes an
explicit store state plus per-call outcome parameters, and raised exceptions
become `Except` errors.  Relevance scores are modelled as rationals (the only
facts proved about them are presence and projection, never float arithmetic).
-/

namespace ESApi

/-- JSON-ish values appearing in document bodies and responses.
`frags` models the highlight sub-object `(field, fragment list)` returned by
the store's highlighter. -/
inductive JVal where
  | s : String → JVal
  | num : Rat → JVal
  | int : Int → JVal
  | null : JVal
  | frags : List (String × List String) → JVal
deriving DecidableEq, Repr

/-- A Python dict, as an insertion-ordered association list. -/
abbrev PyDict := List (String × JVal)

/-- Dict lookup: `d[k]` when present, `none` otherwise. -/
def dictGet (k : String) : PyDict → Option JVal
  | [] => none
  | (k', v) :: rest => if k' = k then some v else dictGet k rest

/-- Dict assignment `d[k] = v`: replaces the value in place if the key exists,
appends otherwise (Python dicts preserve insertion order). -/
def dictSet (k : String) (v : JVal) : PyDict → PyDict
  | [] => [(k, v)]
  | (k', v') :: rest =>
      if k' = k then (k', v) :: rest else (k', v') :: dictSet k v rest

/-- The pydantic model `Document` of main.py lines 34-38:
`author: str`, `text: str`, `timestamp: Optional[str] = None`,
`views: Optional[int] = 0`. -/
structure Document where
  author : String
  text : String
  timestamp : Option String := none
  views : Int := 0
deriving DecidableEq, Repr

/-- `Document.dict()`: the dict submitted to the store, with exactly the four
model fields (an absent timestamp serialises as `None`). -/
def Document.dict (d : Document) : PyDict :=
  [("author", .s d.author),
   ("text", .s d.text),
   ("timestamp", match d.timestamp with | some t => .s t | none => .null),
   ("views", .int d.views)]

/-- A raw request body for POST /documents, before pydantic validation:
each field may be present or absent. -/
structure RawInput where
  author : Option String
  text : Option String
  timestamp : Option String
  views : Option Int
deriving DecidableEq, Repr

/-- Pydantic validation of the `Document` model: `author` and `text` are
required, `timestamp` defaults to `None` and `views` to `0`.  Pydantic checks
presence and type only; it imposes no minimum length on the strings. -/
def validateDocument (r : RawInput) : Except String Document :=
  match r.author, r.text with
  | some a, some t => .ok ⟨a, t, r.timestamp, r.views.getD 0⟩
  | none, _ => .error "field required: author"
  | _, none => .error "field required: text"

/-- Python truthiness of an `Optional[str]`: `None` and `""` are falsy. -/
def strTruthy : Option String → Bool
  | none => false
  | some t => !(t = "")

/-! ### Backend connector (main.py lines 42-64) -/

/-- Outcome of one iteration of the retry loop body: the client constructor
and `es.ping()` either yield a live handle (`ping` returned `True`), or `ping`
returned `False` (logged warning), or an exception was raised (logged error). -/
inductive AttemptOutcome where
  | ok : Nat → AttemptOutcome
  | pingFailed : AttemptOutcome
  | exn : String → AttemptOutcome
deriving DecidableEq, Repr

/-- The try/except body of one attempt: a handle on a successful ping, `none`
when the ping failed or an exception was caught (both fall through to retry). -/
def attemptResult : AttemptOutcome → Option Nat
  | .ok h => some h
  | .pingFailed => none
  | .exn _ => none

/-- Message of the `ConnectionError` raised after the loop (line 64). -/
def connErrMsg : String := "Could not connect to Elasticsearch"

/-- The retry loop of `connect_elasticsearch`, parameterised by the outcome of
each attempt.  Returns the list of sleep durations performed (seconds) and
either the connection handle or the final `ConnectionError`.  A sleep of
`retry_interval = 5` happens after a failed attempt only while
`attempt < max_retries - 1`. -/
def connectAux (probe : Nat → AttemptOutcome) (attempt : Nat) :
    Nat → List Nat × Except String Nat
  | 0 => ([], .error connErrMsg)
  | r + 1 =>
    match attemptResult (probe attempt) with
    | some h => ([], .ok h)
    | none =>
        if r = 0 then ([], .error connErrMsg)
        else
          let rest := connectAux probe (attempt + 1) r
          (5 :: rest.1, rest.2)

/-- `connect_elasticsearch` (main.py lines 42-64): `max_retries = 5`,
`retry_interval = 5` seconds, attempts numbered from 0. -/
def connect_elasticsearch (probe : Nat → AttemptOutcome) :
    List Nat × Except String Nat :=
  connectAux probe 0 5

/-! ### Store state and index provisioning (main.py lines 72-127) -/

/-- Field types used in the index mapping: `keyword` is exact-match
(non-tokenized), `textStandard` is `{"type": "text", "analyzer": "standard"}`
(tokenized), `date fmt` carries the accepted-format string, `integer` is the
numeric counter type. -/
inductive FieldType where
  | keyword : FieldType
  | textStandard : FieldType
  | date : String → FieldType
  | integer : FieldType
deriving DecidableEq, Repr

/-- State of one index: its field mapping and its stored documents. -/
structure IndexState where
  mapping : List (String × FieldType)
  docs : List PyDict
deriving DecidableEq, Repr

/-- The external store: named indices, in creation order. -/
structure Store where
  indices : List (String × IndexState)
deriving DecidableEq, Repr

/-- Find the (first) index with the given name. -/
def lookupIdx (name : String) : List (String × IndexState) → Option IndexState
  | [] => none
  | (n, ix) :: rest => if n = name then some ix else lookupIdx name rest

/-- `es.indices.exists(index=name)`. -/
def indexExists (st : Store) (name : String) : Bool :=
  (lookupIdx name st.indices).isSome

/-- `es.indices.create(index=name, body=mapping)`: adds a fresh empty index. -/
def createIndex (st : Store) (name : String)
    (m : List (String × FieldType)) : Store :=
  ⟨st.indices ++ [(name, ⟨m, []⟩)]⟩

/-- Append a document to the named index (first occurrence). -/
def appendDoc (name : String) (doc : PyDict) :
    List (String × IndexState) → List (String × IndexState)
  | [] => []
  | (n, ix) :: rest =>
      if n = name then (n, ⟨ix.mapping, ix.docs ++ [doc]⟩) :: rest
      else (n, ix) :: appendDoc name doc rest

/-- `es.index(index=name, document=doc)` on the store state. -/
def indexDoc (st : Store) (name : String) (doc : PyDict) : Store :=
  ⟨appendDoc name doc st.indices⟩

/-- The explicit mapping of the `documents` index (main.py lines 78-90). -/
def documentsMapping : List (String × FieldType) :=
  [("author", .keyword),
   ("text", .textStandard),
   ("timestamp", .date "strict_date_optional_time||epoch_millis"),
   ("views", .integer)]

/-- The three seed documents (main.py lines 95-114); `now` stands for
`datetime.now().isoformat()` at seeding time. -/
def sampleDocs (now : String) : List Document :=
  [⟨"John Doe",
    "Elasticsearch is a powerful search engine based on Lucene.",
    some now, 42⟩,
   ⟨"Jane Smith",
    "FastAPI makes it easy to build high-performance APIs quickly.",
    some now, 17⟩,
   ⟨"Bob Johnson",
    "Docker simplifies deployment by containerizing applications.",
    some now, 29⟩]

/-- Fault injection for the store calls made by `initialize_index`: each field,
when `some msg`, makes the corresponding client call raise an exception with
that message (`existsFault` for `es.indices.exists`, `createFault` for
`es.indices.create`, `seedFault` for the first `es.index` seeding call). -/
structure StoreFaults where
  existsFault : Option String
  createFault : Option String
  seedFault : Option String
deriving DecidableEq, Repr

/-- The fault-free store behaviour. -/
def noFaults : StoreFaults := ⟨none, none, none⟩

/-- The store state produced by a successful fresh provisioning run: the
`documents` index created with `documentsMapping`, then the three sample
documents indexed in order (the seeding loop of main.py lines 117-118). -/
def provisionedStore (now : String) (st : Store) : Store :=
  (sampleDocs now).foldl (fun s d => indexDoc s "documents" d.dict)
    (createIndex st "documents" documentsMapping)

/-- `initialize_index` (main.py lines 72-127): checks whether the `documents`
index exists; if absent, creates it with `documentsMapping` and seeds the three
sample documents; if present, a logged no-op.  The surrounding try/except logs
any exception and re-raises it (`raise`, line 127), so every store fault
propagates to the caller as an error. -/
def initialize_index (f : StoreFaults) (now : String) (st : Store) :
    Except String Store :=
  match f.existsFault with
  | some e => .error e
  | none =>
    if indexExists st "documents" then .ok st
    else
      match f.createFault with
      | some e => .error e
      | none =>
        let st1 := createIndex st "documents" documentsMapping
        match f.seedFault with
        | some e => .error e
        | none =>
          .ok ((sampleDocs now).foldl
                (fun s d => indexDoc s "documents" d.dict) st1)

/-- Whether an `Except` result is a normal return (no exception escaped). -/
def returnsNormally {ε α : Type} : Except ε α → Bool
  | .ok _ => true
  | .error _ => false

/-- `startup_event` (main.py lines 131-139): calls `initialize_index` inside a
try/except whose handler only logs the failure; the exception is not re-raised,
so the hook always returns normally (`.ok`) and FastAPI proceeds to serve
requests whether or not initialization succeeded. -/
def startup_event (f : StoreFaults) (now : String) (st : Store) :
    Except String Store :=
  match initialize_index f now st with
  | .ok st' => .ok st'
  | .error _ => .ok st

/-! ### Document gateway (main.py lines 151-234) -/

/-- Exceptions raised by the Elasticsearch client during a gateway call:
`notFound` is `exceptions.NotFoundError` (missing index or missing document);
`other` is any other exception, carrying `str(e)`. -/
inductive ESErr where
  | notFound : ESErr
  | other : String → ESErr
deriving DecidableEq, Repr

/-- `str(e)` for a client exception. -/
def ESErr.msg : ESErr → String
  | .notFound => "NotFoundError"
  | .other m => m

/-- An `HTTPException(status_code, detail)`. -/
structure HTTPExc where
  status : Nat
  detail : String
deriving DecidableEq, Repr

/-- One hit of an `es.search` response: `_source`, `_score`, and the optional
`highlight` object. -/
structure Hit where
  source : PyDict
  score : Rat
  highlight : Option (List (String × List String))
deriving DecidableEq, Repr

/-- The hits list of an `es.search` response (`response["hits"]["hits"]`). -/
structure SearchResponse where
  hits : List Hit
deriving DecidableEq, Repr

/-- `list_documents` (main.py lines 151-165), parameterised by the outcome of
the match-all `es.search` call: on success projects each hit to its `_source`;
`NotFoundError` (index missing) yields an empty result list; any other
exception becomes a 500 with `str(e)` as detail. -/
def list_documents (resp : Except ESErr SearchResponse) :
    Except HTTPExc (List PyDict) :=
  match resp with
  | .ok r => .ok (r.hits.map (fun h => h.source))
  | .error .notFound => .ok []
  | .error (.other m) => .error ⟨500, m⟩

/-- The document actually submitted by `create_document` (main.py lines
176-178): `if not document.timestamp:` replaces a falsy timestamp — `None` or
the empty string — with `datetime.now().isoformat()`. -/
def submittedDoc (now : String) (d : Document) : Document :=
  if strTruthy d.timestamp then d else { d with timestamp := some now }

/-- `create_document` (main.py lines 170-184), parameterised by the store's
response to `es.index` on the submitted dict (the store-assigned `_id` on
success): returns `{"result": "Document indexed", "id": _id}`; any exception
becomes a 500. -/
def create_document (now : String) (d : Document)
    (store : PyDict → Except ESErr String) :
    Except HTTPExc (String × String) :=
  match store (submittedDoc now d).dict with
  | .ok docId => .ok ("Document indexed", docId)
  | .error e => .error ⟨500, e.msg⟩

/-- `get_document` (main.py lines 189-200), parameterised by the outcome of
`es.get`, whose success value is `response["_source"]`: `NotFoundError` maps to
404 "Document not found"; any other exception to 500 with `str(e)`. -/
def get_document (resp : Except ESErr PyDict) : Except HTTPExc PyDict :=
  match resp with
  | .ok src => .ok src
  | .error .notFound => .error ⟨404, "Document not found"⟩
  | .error (.other m) => .error ⟨500, m⟩

/-- The per-hit result shaping of `search_documents` (main.py lines 220-227):
start from `hit["_source"]`, add `doc["highlight"]` when the store provided
one, then always set `doc["score"] = hit["_score"]`. -/
def shapeSearchHit (h : Hit) : PyDict :=
  let doc := h.source
  let doc := match h.highlight with
    | some hl => dictSet "highlight" (.frags hl) doc
    | none => doc
  dictSet "score" (.num h.score) doc

/-- `search_documents` (main.py lines 204-234), parameterised by the outcome
of the match query against `text`: shapes each hit in order; `NotFoundError`
(index missing) yields an empty result list; any other exception becomes a
500. -/
def search_documents (resp : Except ESErr SearchResponse) :
    Except HTTPExc (List PyDict) :=
  match resp with
  | .ok r => .ok (r.hits.map shapeSearchHit)
  | .error .notFound => .ok []
  | .error (.other m) => .error ⟨500, m⟩

/-- Number of indices named `name` in the store. -/
def countIndices (st : Store) (name : String) : Nat :=
  (st.indices.filter (fun p => p.1 = name)).length

/-- Documents of the first index named `name` (empty if absent). -/
def docsOf (st : Store) (name : String) : List PyDict :=
  match lookupIdx name st.indices with
  | some ix => ix.docs
  | none => []

/-- Mapping of the first index named `name` (empty if absent). -/
def mappingOf (st : Store) (name : String) : List (String × FieldType) :=
  match lookupIdx name st.indices with
  | some ix => ix.mapping
  | none => []

/-! ### Dict lemmas -/

theorem dictGet_dictSet (k : String) (v : JVal) (l : PyDict) :
    dictGet k (dictSet k v l) = some v := by
  induction l with
  | nil => simp [dictSet, dictGet]
  | cons p rest ih =>
    obtain ⟨k', v'⟩ := p
    by_cases h : k' = k
    · simp [dictSet, dictGet, h]
    · simp [dictSet, dictGet, h, ih]

theorem dictGet_score_document (d : Document) :
    dictGet "score" d.dict = none := by
  simp [Document.dict, dictGet]

theorem dictGet_author_document (d : Document) :
    dictGet "author" d.dict = some (.s d.author) := by
  simp [Document.dict, dictGet]

theorem dictGet_text_document (d : Document) :
    dictGet "text" d.dict = some (.s d.text) := by
  simp [Document.dict, dictGet]

theorem score_of_shapeSearchHit (h : Hit) :
    dictGet "score" (shapeSearchHit h) = some (.num h.score) := by
  cases hh : h.highlight <;> simp [shapeSearchHit, hh, dictGet_dictSet]

/-! ### Claim theorems -/

/-- C2: every document returned by the search operation carries a numeric
`score` field equal to the store's relevance score of its hit, while documents
returned by the list and get operations (whose sources are serialised
`Document` values, the only shape this service ever stores) never carry a
`score` field. -/
theorem search_scores_but_list_get_unscored
    (hits : List Hit) (src : PyDict)
    (hsrc : ∀ h ∈ hits, ∃ d : Document, h.source = d.dict)
    (hget : ∃ d : Document, src = d.dict) :
    search_documents (.ok ⟨hits⟩) = .ok (hits.map shapeSearchHit) ∧
    (∀ h ∈ hits, dictGet "score" (shapeSearchHit h) = some (.num h.score)) ∧
    list_documents (.ok ⟨hits⟩) = .ok (hits.map (fun h => h.source)) ∧
    (∀ h ∈ hits, dictGet "score" h.source = none) ∧
    get_document (.ok src) = .ok src ∧
    dictGet "score" src = none := by
  refine ⟨rfl, fun h _ => score_of_shapeSearchHit h, rfl, ?_, rfl, ?_⟩
  · intro h hh
    obtain ⟨d, hd⟩ := hsrc h hh
    rw [hd]
    exact dictGet_score_document d
  · obtain ⟨d, hd⟩ := hget
    rw [hd]
    exact dictGet_score_document d

/-- Closed instance of the C2 theorem at a concrete hit and source. -/
theorem search_scores_but_list_get_unscored_witness :
    dictGet "score"
        (shapeSearchHit ⟨(Document.mk "a" "b" none 0).dict, 1, none⟩) =
      some (.num 1) ∧
    dictGet "score" (Document.mk "a" "b" none 0).dict = none := by
  have h := search_scores_but_list_get_unscored
    [⟨(Document.mk "a" "b" none 0).dict, 1, none⟩]
    (Document.mk "a" "b" none 0).dict
    (by
      intro h hh
      rw [List.mem_singleton] at hh
      exact ⟨Document.mk "a" "b" none 0, by rw [hh]⟩)
    ⟨Document.mk "a" "b" none 0, rfl⟩
  exact ⟨h.2.1 _ (List.mem_singleton.mpr rfl), h.2.2.2.2.2⟩

/-- C3: a `NotFoundError` from the store during get maps to HTTP 404
"Document not found" (never 500), and every other store failure during get
maps to HTTP 500 carrying the exception message. -/
theorem get_notfound_404_other_500 :
    get_document (.error .notFound) = .error ⟨404, "Document not found"⟩ ∧
    (∀ m, get_document (.error (.other m)) = .error ⟨500, m⟩) := by
  exact ⟨rfl, fun m => rfl⟩

/-- C4: when the target index does not exist the store raises
`NotFoundError`, and both list and search turn it into a successful response
with an empty results list. -/
theorem missing_index_yields_empty_results :
    list_documents (.error .notFound) = .ok [] ∧
    search_documents (.error .notFound) = .ok [] :=
  ⟨rfl, rfl⟩

/-- C7 counterexample: a document whose supplied timestamp is the empty
string is not submitted unchanged — `if not document.timestamp` treats the
empty string as falsy and overwrites it with the current time. -/
theorem supplied_timestamp_unchanged_cex :
    submittedDoc "2024-01-01T00:00:00" (Document.mk "a" "t" (some "") 0) ≠
      Document.mk "a" "t" (some "") 0 := by decide

/-- C7 (amended): if the timestamp is absent, create fills it with the
current server time before submitting; a supplied non-empty timestamp is
submitted unchanged; in both cases create returns the store-assigned id. -/
theorem create_timestamp_fill_and_id (now : String) (d : Document)
    (store : PyDict → Except ESErr String) (docId : String)
    (hstore : store (submittedDoc now d).dict = .ok docId) :
    (d.timestamp = none →
      submittedDoc now d = { d with timestamp := some now }) ∧
    (∀ t, t ≠ "" → d.timestamp = some t → submittedDoc now d = d) ∧
    create_document now d store = .ok ("Document indexed", docId) := by
  refine ⟨?_, ?_, ?_⟩
  · intro h
    simp [submittedDoc, strTruthy, h]
  · intro t ht h
    simp [submittedDoc, strTruthy, h, ht]
  · simp [create_document, hstore]

/-- Closed instance of the C7 theorem at a concrete document and store. -/
theorem create_timestamp_fill_and_id_witness :
    submittedDoc "T0" (Document.mk "a" "t" none 0) =
      Document.mk "a" "t" (some "T0") 0 ∧
    create_document "T0" (Document.mk "a" "t" none 0) (fun _ => .ok "id1") =
      .ok ("Document indexed", "id1") := by
  have h := create_timestamp_fill_and_id "T0" (Document.mk "a" "t" none 0)
    (fun _ => .ok "id1") "id1" rfl
  exact ⟨h.1 rfl, h.2.2⟩

/-- C9 counterexample: a body with empty `author` and `text` strings passes
pydantic validation (which only checks presence and type) and the resulting
document, empty fields included, is submitted to the store by create. -/
theorem empty_author_reaches_store_cex :
    validateDocument ⟨some "", some "", none, none⟩ =
      .ok (Document.mk "" "" none 0) ∧
    create_document "T0" (Document.mk "" "" none 0) (fun _ => .ok "id1") =
      .ok ("Document indexed", "id1") ∧
    dictGet "author" (submittedDoc "T0" (Document.mk "" "" none 0)).dict =
      some (.s "") :=
  ⟨rfl, rfl, by decide⟩

/-- C9 (amended): create's validation requires only that `author` and `text`
be present — it accepts them verbatim, with no emptiness check, and the
submitted dict carries the input's author and text unchanged (empty or not). -/
theorem create_validation_presence_only (r : RawInput) (now : String)
    (d : Document) :
    ((∃ d0, validateDocument r = .ok d0) ↔ (r.author.isSome ∧ r.text.isSome)) ∧
    (∀ d0, validateDocument r = .ok d0 →
      r.author = some d0.author ∧ r.text = some d0.text) ∧
    dictGet "author" (submittedDoc now d).dict = some (.s d.author) ∧
    dictGet "text" (submittedDoc now d).dict = some (.s d.text) := by
  refine ⟨⟨?_, ?_⟩, ?_, ?_, ?_⟩
  · rintro ⟨d0, hd0⟩
    cases ha : r.author <;> cases ht : r.text <;>
      simp [validateDocument, ha, ht] at hd0 ⊢
  · rintro ⟨ha, ht⟩
    cases hha : r.author with
    | none => simp [hha] at ha
    | some a =>
      cases hht : r.text with
      | none => simp [hht] at ht
      | some t =>
        exact ⟨⟨a, t, r.timestamp, r.views.getD 0⟩,
          by simp [validateDocument, hha, hht]⟩
  · intro d0 hd0
    cases hha : r.author with
    | none => simp [validateDocument, hha] at hd0
    | some a =>
      cases hht : r.text with
      | none => simp [validateDocument, hha, hht] at hd0
      | some t =>
        have hv : validateDocument r = .ok ⟨a, t, r.timestamp, r.views.getD 0⟩ := by
          simp [validateDocument, hha, hht]
        rw [hv] at hd0
        injection hd0 with h
        subst h
        exact ⟨by simp [hha], by simp [hht]⟩
  · have : (submittedDoc now d).author = d.author := by
      simp [submittedDoc]
      split <;> rfl
    rw [← this]
    exact dictGet_author_document _
  · have : (submittedDoc now d).text = d.text := by
      simp [submittedDoc]
      split <;> rfl
    rw [← this]
    exact dictGet_text_document _

/-- Closed instance of the C9 amended theorem at a concrete input and
document. -/
theorem create_validation_presence_only_witness :
    dictGet "author"
        (submittedDoc "T0" (Document.mk "x" "y" none 0)).dict =
      some (.s "x") ∧
    (∃ d0, validateDocument ⟨some "a", some "t", none, none⟩ = .ok d0) :=
  ⟨(create_validation_presence_only ⟨some "a", some "t", none, none⟩ "T0"
      (Document.mk "x" "y" none 0)).2.2.1,
   (create_validation_presence_only ⟨some "a", some "t", none, none⟩ "T0"
      (Document.mk "x" "y" none 0)).1.mpr (by decide)⟩

/-- C10: a present-but-empty timestamp is treated exactly like an absent one:
create replaces it with the current server time before submitting, so the
empty string never reaches the store as a timestamp. -/
theorem empty_timestamp_replaced (now : String) (d : Document)
    (h : d.timestamp = some "") :
    submittedDoc now d = { d with timestamp := some now } ∧
    dictGet "timestamp" (submittedDoc now d).dict = some (.s now) ∧
    (now ≠ "" → dictGet "timestamp" (submittedDoc now d).dict ≠ some (.s "")) := by
  have h1 : submittedDoc now d = { d with timestamp := some now } := by
    simp [submittedDoc, strTruthy, h]
  refine ⟨h1, ?_, ?_⟩
  · rw [h1]
    simp [Document.dict, dictGet]
  · intro hne
    rw [h1]
    simp [Document.dict, dictGet, hne]

/-- Closed instance of the C10 theorem at a concrete document. -/
theorem empty_timestamp_replaced_witness :
    submittedDoc "T0" (Document.mk "a" "t" (some "") 0) =
      Document.mk "a" "t" (some "T0") 0 :=
  (empty_timestamp_replaced "T0" (Document.mk "a" "t" (some "") 0) rfl).1

/-! ### Provisioning lemmas -/

theorem lookupIdx_append_self (l : List (String × IndexState))
    (name : String) (ix : IndexState) (h : lookupIdx name l = none) :
    lookupIdx name (l ++ [(name, ix)]) = some ix := by
  induction l with
  | nil => simp [lookupIdx]
  | cons p rest ih =>
    obtain ⟨n, ix'⟩ := p
    by_cases hn : n = name
    · simp [lookupIdx, hn] at h
    · simp only [lookupIdx, List.cons_append, if_neg hn] at h ⊢
      exact ih h

theorem lookupIdx_appendDoc (name : String) (doc : PyDict)
    (l : List (String × IndexState)) :
    lookupIdx name (appendDoc name doc l) =
      (lookupIdx name l).map (fun ix => ⟨ix.mapping, ix.docs ++ [doc]⟩) := by
  induction l with
  | nil => simp [appendDoc, lookupIdx]
  | cons p rest ih =>
    obtain ⟨n, ix⟩ := p
    by_cases hn : n = name
    · simp [appendDoc, lookupIdx, hn]
    · simp [appendDoc, lookupIdx, hn, ih]

theorem filterCount_of_lookupIdx_none (l : List (String × IndexState))
    (name : String) (h : lookupIdx name l = none) :
    (l.filter (fun p => p.1 = name)).length = 0 := by
  induction l with
  | nil => simp
  | cons p rest ih =>
    obtain ⟨n, ix⟩ := p
    by_cases hn : n = name
    · simp [lookupIdx, hn] at h
    · simp only [lookupIdx, if_neg hn] at h
      simp [List.filter, hn, ih h]

theorem filterCount_appendDoc (name name' : String) (doc : PyDict)
    (l : List (String × IndexState)) :
    ((appendDoc name doc l).filter (fun p => p.1 = name')).length =
      (l.filter (fun p => p.1 = name')).length := by
  induction l with
  | nil => simp [appendDoc]
  | cons p rest ih =>
    obtain ⟨n, ix⟩ := p
    by_cases hn : n = name
    · by_cases hn' : n = name'
      · have hnn : name = name' := by rw [← hn]; exact hn'
        simp [appendDoc, hn, hnn, List.filter]
      · have hnn : ¬name = name' := fun hh => hn' (hn.trans hh)
        simp [appendDoc, hn, hnn, List.filter]
    · by_cases hn' : n = name'
      · have hnn : ¬name' = name := fun hh => hn (hn'.trans hh)
        simp [appendDoc, hn, hn', hnn, List.filter, ih]
      · simp [appendDoc, hn, hn', List.filter, ih]

/-- A fresh provisioning run succeeds and produces `provisionedStore`, whose
`documents` index carries the declared mapping and the three serialised seed
documents. -/
theorem initialize_index_of_absent (now : String) (st : Store)
    (h : indexExists st "documents" = false) :
    initialize_index noFaults now st = .ok (provisionedStore now st) ∧
    lookupIdx "documents" (provisionedStore now st).indices =
      some ⟨documentsMapping, (sampleDocs now).map Document.dict⟩ ∧
    countIndices (provisionedStore now st) "documents" = 1 := by
  have hnone : lookupIdx "documents" st.indices = none := by
    cases hl : lookupIdx "documents" st.indices with
    | none => rfl
    | some ix => simp [indexExists, hl] at h
  refine ⟨?_, ?_, ?_⟩
  · simp [initialize_index, noFaults, h, provisionedStore]
  · have hbase :
        lookupIdx "documents" (createIndex st "documents" documentsMapping).indices =
          some ⟨documentsMapping, []⟩ :=
      lookupIdx_append_self st.indices "documents" ⟨documentsMapping, []⟩ hnone
    simp only [provisionedStore, sampleDocs, List.foldl, indexDoc]
    simp [lookupIdx_appendDoc, hbase, sampleDocs]
  · have hzero := filterCount_of_lookupIdx_none st.indices "documents" hnone
    simp only [provisionedStore, sampleDocs, List.foldl, indexDoc, countIndices]
    simp only [filterCount_appendDoc]
    simp [countIndices, createIndex, List.filter_append, hzero, List.filter]

/-- C5: index provisioning is idempotent: a fresh run creates exactly one
`documents` index holding exactly the three seed documents, a second run on
the resulting store is a successful no-op, and the index and seed counts are
unchanged by it. -/
theorem initialize_index_idempotent (now now2 : String) (st : Store)
    (h : indexExists st "documents" = false) :
    initialize_index noFaults now st = .ok (provisionedStore now st) ∧
    initialize_index noFaults now2 (provisionedStore now st) =
      .ok (provisionedStore now st) ∧
    countIndices (provisionedStore now st) "documents" = 1 ∧
    (docsOf (provisionedStore now st) "documents").length = 3 := by
  obtain ⟨h1, h2, h3⟩ := initialize_index_of_absent now st h
  have hex : indexExists (provisionedStore now st) "documents" = true := by
    simp [indexExists, h2]
  refine ⟨h1, ?_, h3, ?_⟩
  · simp [initialize_index, noFaults, hex]
  · simp [docsOf, h2, sampleDocs]

/-- Closed instance of the C5 theorem starting from the empty store. -/
theorem initialize_index_idempotent_witness :
    initialize_index noFaults "T" ⟨[]⟩ = .ok (provisionedStore "T" ⟨[]⟩) ∧
    initialize_index noFaults "U" (provisionedStore "T" ⟨[]⟩) =
      .ok (provisionedStore "T" ⟨[]⟩) ∧
    countIndices (provisionedStore "T" ⟨[]⟩) "documents" = 1 ∧
    (docsOf (provisionedStore "T" ⟨[]⟩) "documents").length = 3 :=
  initialize_index_idempotent "T" "U" ⟨[]⟩ (by decide)

/-- C8: provisioning an absent index creates it with exactly the declared
field schema — `author` keyword (exact-match), `text` tokenized with the
standard analyzer, `timestamp` a date accepting strict ISO-8601 or
epoch-millis, `views` integer — and then inserts the fixed set of three seed
documents. -/
theorem provisioning_schema_and_seeds (now : String) (st : Store)
    (h : indexExists st "documents" = false) :
    initialize_index noFaults now st = .ok (provisionedStore now st) ∧
    mappingOf (provisionedStore now st) "documents" =
      [("author", .keyword),
       ("text", .textStandard),
       ("timestamp", .date "strict_date_optional_time||epoch_millis"),
       ("views", .integer)] ∧
    docsOf (provisionedStore now st) "documents" =
      (sampleDocs now).map Document.dict ∧
    (sampleDocs now).length = 3 := by
  obtain ⟨h1, h2, _⟩ := initialize_index_of_absent now st h
  refine ⟨h1, ?_, ?_, by simp [sampleDocs]⟩
  · simp [mappingOf, h2, documentsMapping]
  · simp [docsOf, h2]

/-- Closed instance of the C8 theorem starting from the empty store. -/
theorem provisioning_schema_and_seeds_witness :
    mappingOf (provisionedStore "T" ⟨[]⟩) "documents" =
      [("author", .keyword),
       ("text", .textStandard),
       ("timestamp", .date "strict_date_optional_time||epoch_millis"),
       ("views", .integer)] ∧
    docsOf (provisionedStore "T" ⟨[]⟩) "documents" =
      (sampleDocs "T").map Document.dict :=
  ⟨(provisioning_schema_and_seeds "T" ⟨[]⟩ (by decide)).2.1,
   (provisioning_schema_and_seeds "T" ⟨[]⟩ (by decide)).2.2.1⟩

/-- C1 counterexample: with a store fault during the existence check,
`initialize_index` re-raises the error, yet `startup_event` swallows it and
returns normally, so the application still begins serving requests. -/
theorem startup_survives_init_failure_cex :
    initialize_index ⟨some "boom", none, none⟩ "T" ⟨[]⟩ = .error "boom" ∧
    startup_event ⟨some "boom", none, none⟩ "T" ⟨[]⟩ = .ok ⟨[]⟩ ∧
    returnsNormally (startup_event ⟨some "boom", none, none⟩ "T" ⟨[]⟩) = true :=
  ⟨rfl, rfl, rfl⟩

/-- C1 (amended): `initialize_index` re-raises every store fault (existence
check, index creation, or seeding) to its caller, but the startup hook
catches all exceptions and only logs them, so startup always completes
normally and the service begins serving requests even after a failed
initialization. -/
theorem startup_swallows_init_errors (f : StoreFaults) (now : String)
    (st : Store) :
    (∀ e, f.existsFault = some e → initialize_index f now st = .error e) ∧
    (f.existsFault = none → indexExists st "documents" = false →
      ∀ e, f.createFault = some e → initialize_index f now st = .error e) ∧
    (f.existsFault = none → indexExists st "documents" = false →
      f.createFault = none → ∀ e, f.seedFault = some e →
      initialize_index f now st = .error e) ∧
    returnsNormally (startup_event f now st) = true := by
  refine ⟨?_, ?_, ?_, ?_⟩
  · intro e he
    simp [initialize_index, he]
  · intro h1 h2 e he
    simp [initialize_index, h1, h2, he]
  · intro h1 h2 h3 e he
    simp [initialize_index, h1, h2, h3, he]
  · cases hinit : initialize_index f now st <;>
      simp [startup_event, hinit, returnsNormally]

/-- Closed instance of the C1 amended theorem: a fault during index creation
propagates out of `initialize_index` while the startup hook still returns
normally. -/
theorem startup_swallows_init_errors_witness :
    initialize_index ⟨none, some "boom", none⟩ "T" ⟨[]⟩ = .error "boom" ∧
    returnsNormally (startup_event ⟨none, some "boom", none⟩ "T" ⟨[]⟩) = true :=
  ⟨(startup_swallows_init_errors ⟨none, some "boom", none⟩ "T" ⟨[]⟩).2.1
      rfl (by decide) "boom" rfl,
   (startup_swallows_init_errors ⟨none, some "boom", none⟩ "T" ⟨[]⟩).2.2.2⟩

/-! ### Connector lemmas -/

theorem connectAux_sleeps (probe : Nat → AttemptOutcome) (a r : Nat) :
    ∀ d ∈ (connectAux probe a r).1, d = 5 := by
  induction r generalizing a with
  | zero => simp [connectAux]
  | succ r ih =>
    intro d hd
    simp only [connectAux] at hd
    cases hres : attemptResult (probe a) with
    | some h => rw [hres] at hd; simp at hd
    | none =>
      rw [hres] at hd
      by_cases hr : r = 0
      · simp [hr] at hd
      · simp only [if_neg hr] at hd
        simp only [List.mem_cons] at hd
        rcases hd with hd | hd
        · exact hd
        · exact ih (a + 1) d hd

theorem connectAux_error_iff (probe : Nat → AttemptOutcome) (a r : Nat) :
    (connectAux probe a r).2 = .error connErrMsg ↔
      ∀ i < r, attemptResult (probe (a + i)) = none := by
  induction r generalizing a with
  | zero => simp [connectAux]
  | succ r ih =>
    cases hres : attemptResult (probe a) with
    | some h =>
      constructor
      · intro hc
        simp [connectAux, hres] at hc
      · intro hall
        have h0 := hall 0 (by omega)
        simp [hres] at h0
    | none =>
      by_cases hr : r = 0
      · subst hr
        simp only [connectAux, hres, if_pos rfl]
        constructor
        · intro _ i hi
          have hi0 : i = 0 := by omega
          subst hi0
          simpa using hres
        · intro _
          rfl
      · simp only [connectAux, hres, if_neg hr]
        rw [ih (a + 1)]
        constructor
        · intro hall i hi
          match i, hi with
          | 0, _ => simpa using hres
          | (i + 1), hi =>
            have h2 := hall i (by omega)
            have heq : a + 1 + i = a + (i + 1) := by omega
            rwa [heq] at h2
        · intro hall i hi
          have h2 := hall (i + 1) (by omega)
          have heq : a + (i + 1) = a + 1 + i := by omega
          rwa [heq] at h2

theorem connectAux_all_fail (probe : Nat → AttemptOutcome) (r a : Nat)
    (h : ∀ i < r, attemptResult (probe (a + i)) = none) :
    connectAux probe a r = (List.replicate (r - 1) 5, .error connErrMsg) := by
  induction r generalizing a with
  | zero => simp [connectAux]
  | succ r ih =>
    have h0 : attemptResult (probe a) = none := by simpa using h 0 (by omega)
    by_cases hr : r = 0
    · subst hr
      simp [connectAux, h0]
    · simp only [connectAux, h0, if_neg hr]
      rw [ih (a + 1) (fun i hi => by
        have h2 := h (i + 1) (by omega)
        have heq : a + (i + 1) = a + 1 + i := by omega
        rwa [heq] at h2)]
      have hrr : (r + 1) - 1 = (r - 1) + 1 := by omega
      rw [hrr, List.replicate_succ]

theorem connectAux_first_success (probe : Nat → AttemptOutcome) (i : Nat) :
    ∀ r a h, i < r → (∀ j < i, attemptResult (probe (a + j)) = none) →
      attemptResult (probe (a + i)) = some h →
      connectAux probe a r = (List.replicate i 5, .ok h) := by
  induction i with
  | zero =>
    intro r a h hir _ hsucc
    cases r with
    | zero => omega
    | succ r =>
      have hs : attemptResult (probe a) = some h := by simpa using hsucc
      simp [connectAux, hs]
  | succ i ih =>
    intro r a h hir hj hsucc
    cases r with
    | zero => omega
    | succ r =>
      have h0 : attemptResult (probe a) = none := by
        simpa using hj 0 (by omega)
      have hrne : ¬r = 0 := by omega
      simp only [connectAux, h0, if_neg hrne]
      rw [ih r (a + 1) h (by omega)
        (fun j hji => by
          have h2 := hj (j + 1) (by omega)
          have heq : a + (j + 1) = a + 1 + j := by omega
          rwa [heq] at h2)
        (by
          have heq : a + (i + 1) = a + 1 + i := by omega
          rwa [heq] at hsucc)]
      rw [List.replicate_succ]

/-- C6: the connector makes up to 5 attempts with a fixed 5-second delay
between attempts and no backoff growth; it returns the handle of the first
attempt whose liveness probe succeeds, and it raises `ConnectionError`
exactly when — and only after — all 5 attempts have failed. -/
theorem connect_retry_policy (probe : Nat → AttemptOutcome) :
    ((connect_elasticsearch probe).2 = .error connErrMsg ↔
      ∀ i < 5, attemptResult (probe i) = none) ∧
    ((∀ i < 5, attemptResult (probe i) = none) →
      connect_elasticsearch probe = (List.replicate 4 5, .error connErrMsg)) ∧
    (∀ i h, i < 5 → (∀ j < i, attemptResult (probe j) = none) →
      probe i = .ok h →
      connect_elasticsearch probe = (List.replicate i 5, .ok h)) ∧
    (∀ d ∈ (connect_elasticsearch probe).1, d = 5) := by
  refine ⟨?_, ?_, ?_, ?_⟩
  · have h := connectAux_error_iff probe 0 5
    simpa [connect_elasticsearch] using h
  · intro hall
    have h := connectAux_all_fail probe 5 0
      (fun i hi => by simpa using hall i hi)
    simpa [connect_elasticsearch] using h
  · intro i h hi hj hsucc
    exact connectAux_first_success probe i 5 0 h hi
      (fun j hji => by simpa using hj j hji)
      (by simp [Nat.zero_add, hsucc, attemptResult])
  · exact fun d hd => connectAux_sleeps probe 0 5 d hd

/-- Closed instance of the C6 theorem: with every attempt raising a
connection exception, the connector sleeps 5 seconds four times and raises
`ConnectionError`. -/
theorem connect_retry_policy_witness :
    connect_elasticsearch (fun _ => .exn "no route to host") =
      (List.replicate 4 5, .error connErrMsg) :=
  (connect_retry_policy (fun _ => .exn "no route to host")).2.1 (by decide)

end ESApi
